import Mathlib

/-!
Verification of the Limitless Canvas MCP server's entity-operation layer.

The TypeScript source is shallowly embedded: database rows become structures,
the Supabase-backed store becomes an explicit `DB` value (with boolean flags
injecting backend failures), every tool operation becomes a pure function
`DB → ... → ToolResult × DB × trace`, and JavaScript number arithmetic on the
progress percentage is modelled exactly (including the IEEE-754 double
computation in `calculateProjectProgress`). ISO timestamp strings are
modelled by their epoch value (a natural number), which preserves the
orderings the code obtains through `new Date(s).getTime()`.
-/

namespace Canvas

/-- The five recognized task statuses, in kanban order
(`src/types/index.ts`, `TaskStatus`).  Statuses are kept as strings in the
embedding because the dispatcher forwards unvalidated strings at runtime. -/
def validTaskStatuses : List String := ["backlog", "todo", "in-progress", "review", "done"]

/-- The four recognized project statuses (`src/types/index.ts`, `ProjectStatus`). -/
def validProjectStatuses : List String := ["active", "completed", "on-hold", "planning"]

/-- `workspaces` row (`src/types/index.ts`, `WorkspaceRow`). -/
structure WorkspaceRow where
  id : String
  name : String
  color : String
  logo : Option String
  owner_id : Option String
  created_at : Nat
  updated_at : Nat
  deriving DecidableEq

/-- `projects` row (`src/types/index.ts`, `ProjectRow`). -/
structure ProjectRow where
  id : String
  workspace_id : String
  name : String
  description : Option String
  status : String
  priority : String
  progress : Int
  budget : Option Int
  spent : Option Int
  due_date : Option String
  client_id : Option String
  team_size : Option Int
  item_type : String
  estimated_duration_hours : Option Int
  created_at : Nat
  updated_at : Nat
  deriving DecidableEq

/-- `tasks` row (`src/types/index.ts`, `TaskRow`). -/
structure TaskRow where
  id : String
  project_id : String
  title : String
  description : Option String
  status : String
  priority : String
  assignee : Option String
  due_date : Option String
  tags : Option (List String)
  order : Int
  created_at : Nat
  updated_at : Nat
  deriving DecidableEq

/-- `team_members` row (`src/types/index.ts`, `TeamMemberRow`). -/
structure TeamMemberRow where
  id : String
  workspace_id : String
  name : String
  email : String
  role : String
  avatar : Option String
  department : Option String
  status : Option String
  created_at : Nat
  updated_at : Nat
  deriving DecidableEq

/-- The Result Envelope (`src/types/index.ts`, `ToolResult`): a success variant
with mandatory data and optional message, or an error variant with an error
string and an optional symbolic code (`code?: string` in the source type). -/
inductive ToolResult (α : Type) where
  | ok (data : α) (message : Option String)
  | err (error : String) (code : Option String)
  deriving DecidableEq

/-- Map over the success payload, as the covariant use at the dispatcher. -/
def ToolResult.map {α β : Type} (f : α → β) : ToolResult α → ToolResult β
  | .ok d m => .ok (f d) m
  | .err e c => .err e c

/-- The success payload of a result, if any. -/
def ToolResult.dataOf {α : Type} : ToolResult α → Option α
  | .ok d _ => some d
  | .err _ _ => none

/-- The symbolic error code of a result, if any. -/
def ToolResult.codeOf {α : Type} : ToolResult α → Option String
  | .ok _ _ => none
  | .err _ c => c

/-- One request issued to the Supabase gateway; operations record their
requests so that claims about "no store request" are expressible. -/
inductive GatewayCall where
  | selectWorkspaces
  | selectProjects
  | selectTasks
  | selectTeamMembers
  | insertProjects
  | updateProjects
  | insertTasks
  | updateTasks
  | deleteTasks
  deriving DecidableEq

/-- The remote store reachable through the gateway, plus per-table failure
switches modelling backend errors (`error` results of Supabase calls). -/
structure DB where
  workspaces : List WorkspaceRow
  projects : List ProjectRow
  tasks : List TaskRow
  teamMembers : List TeamMemberRow
  failWorkspacesSelect : Bool := false
  failProjectsSelect : Bool := false
  failTasksSelect : Bool := false
  failTeamMembersSelect : Bool := false
  failProjectsWrite : Bool := false
  failTasksWrite : Bool := false
  nextId : Nat := 0
  deriving DecidableEq

/-- Process configuration (`src/supabase/client.ts`, `getDefaultWorkspaceId`). -/
structure Config where
  defaultWorkspaceId : Option String
  deriving DecidableEq

/-- The outcome of one operation: its envelope, the store afterwards, and the
gateway requests it issued, in order. -/
def Outcome (α : Type) : Type := ToolResult α × DB × List GatewayCall

/-- JavaScript truthiness of an optional string (`undefined` and the empty
string are falsy). -/
def jsTruthyStr : Option String → Bool
  | none => false
  | some s => !(s == "")

/-- JavaScript truthiness of an optional number (`undefined` and `0` are falsy). -/
def jsTruthyNum : Option Int → Bool
  | none => false
  | some n => !(n == 0)

/-- JavaScript `v || null` on an optional string field. -/
def jsOrNullStr (v : Option String) : Option String :=
  if jsTruthyStr v then v else none

/-- JavaScript `v || null` on an optional numeric field. -/
def jsOrNullNum (v : Option Int) : Option Int :=
  if jsTruthyNum v then v else none

/-- JavaScript `v || d` on an optional string with a string default. -/
def jsOrElseStr (v : Option String) (d : String) : String :=
  if jsTruthyStr v then v.getD d else d

/-- JavaScript `a || b` where both sides are optional strings
(`input.workspace_id || getDefaultWorkspaceId()`). -/
def jsOrStr (a b : Option String) : Option String :=
  if jsTruthyStr a then a else b

/-- `Math.min(100, Math.max(0, p))`, the progress clamp. -/
def clampProgress (p : Int) : Int := min 100 (max 0 p)

/-- `validateWorkspaceId` (`src/supabase/client.ts`): a single-row select that
reports false on backend error and on no-row alike. -/
def validateWorkspaceId (db : DB) (wid : String) : Bool :=
  !db.failWorkspacesSelect && db.workspaces.any (fun w => w.id == wid)

/-- `validateProjectId` (`src/supabase/client.ts`). -/
def validateProjectId (db : DB) (pid : String) : Bool :=
  !db.failProjectsSelect && db.projects.any (fun p => p.id == pid)

/-- `validateTaskId` (`src/supabase/client.ts`). -/
def validateTaskId (db : DB) (tid : String) : Bool :=
  !db.failTasksSelect && db.tasks.any (fun t => t.id == tid)

/-! ### Exact model of the IEEE-754 double computation in `calculateProjectProgress`

The source computes `Math.round((completedTasks / tasks.length) * 100)` on
JavaScript numbers.  Both the division and the multiplication round to the
nearest double (53-bit significand, ties to even); `Math.round` then rounds
half toward positive infinity.  The three steps are reproduced below in exact
natural-number arithmetic; all intermediate values lie in the normal range of
doubles, so no subnormal or overflow handling is required. -/

/-- Round `n / t` to the nearest integer, ties to even (`t > 0`). -/
def rne (n t : Nat) : Nat :=
  let q := n / t
  let r := n % t
  if 2 * r < t then q
  else if t < 2 * r then q + 1
  else if q % 2 = 0 then q else q + 1

/-- Floor of the base-two logarithm, by fuel-bounded halving; `log2fuel 64 n`
is exact for every `n < 2 ^ 64`, which covers all values occurring here. -/
def log2fuel : Nat → Nat → Nat
  | 0, _ => 0
  | fuel + 1, n => if n ≤ 1 then 0 else log2fuel fuel (n / 2) + 1

/-- The least `k` with `t ≤ d * 2 ^ k`: the binade shift of `d / t` for
`1 ≤ d ≤ t`, searched over the sufficient range `0, ..., t`. -/
def minShift (d t : Nat) : Nat :=
  match (List.range (t + 1)).find? (fun k => decide (t ≤ d * 2 ^ k)) with
  | some k => k
  | none => 0

/-- `Math.round((d / t) * 100)` on IEEE-754 doubles, in exact arithmetic:
the double nearest `d / t`, times `100` rounded to the nearest double again,
then rounded half-up to an integer. -/
def jsProgressRound (d t : Nat) : Nat :=
  if d = 0 then 0
  else
    let k := minShift d t
    let m := rne (d * 2 ^ (52 + k)) t
    let a := 100 * m
    let e := log2fuel 64 a
    let m2 := rne a (2 ^ (e - 52))
    let sh := 52 + (52 + k) - e
    (2 * m2 + 2 ^ sh) / 2 ^ (sh + 1)

/-- The rounding the specification ascribes to the progress computation:
`round(100 * done / total)` in exact rational arithmetic, halves up. -/
def roundSpec (d t : Nat) : Nat := (200 * d + t) / (2 * t)

/-- `calculateProjectProgress` (`src/tools/projects.ts`): fetch the project's
task statuses, report `0` with a message when there are none, otherwise the
rounded completion percentage. -/
def calculateProjectProgress (db : DB) (pid : String) : Outcome Nat :=
  if db.failTasksSelect then
    (.err "Failed to calculate progress: backend error" (some "DATABASE_ERROR"), db, [.selectTasks])
  else
    let ts := db.tasks.filter (fun t => t.project_id == pid)
    if ts.isEmpty then
      (.ok 0 (some "No tasks in project"), db, [.selectTasks])
    else
      let completed := (ts.filter (fun t => t.status == "done")).length
      let progress := jsProgressRound completed ts.length
      (.ok progress (some s!"{completed}/{ts.length} tasks completed ({progress}%)"), db, [.selectTasks])

/-! ### Sort comparators

JavaScript `Array.prototype.sort` and the gateway's `order(column)` are
modelled by the stable `List.mergeSort` with boolean comparators. -/

/-- Most-recently-updated first, for workspaces. -/
def updatedDescW (a b : WorkspaceRow) : Bool := decide (b.updated_at ≤ a.updated_at)

/-- Most-recently-updated first, for projects. -/
def updatedDescP (a b : ProjectRow) : Bool := decide (b.updated_at ≤ a.updated_at)

/-- Most-recently-updated first, for tasks. -/
def updatedDescT (a b : TaskRow) : Bool := decide (b.updated_at ≤ a.updated_at)

/-- Ascending kanban `order` column, for tasks. -/
def orderAscT (a b : TaskRow) : Bool := decide (a.order ≤ b.order)

/-! ### Operation inputs (`src/types/index.ts`) -/

/-- `ListWorkspacesInput`. -/
structure ListWorkspacesInput where
  limit : Option Int := none
  deriving DecidableEq

/-- `GetWorkspaceInput`. -/
structure GetWorkspaceInput where
  workspace_id : String
  deriving DecidableEq

/-- `ListProjectsInput`. -/
structure ListProjectsInput where
  workspace_id : Option String := none
  status : Option String := none
  limit : Option Int := none
  deriving DecidableEq

/-- `GetProjectInput`. -/
structure GetProjectInput where
  project_id : String
  include_tasks : Option Bool := none
  deriving DecidableEq

/-- `CreateProjectInput`. -/
structure CreateProjectInput where
  workspace_id : String
  name : String
  description : Option String := none
  status : Option String := none
  priority : Option String := none
  budget : Option Int := none
  due_date : Option String := none
  client_id : Option String := none
  estimated_duration_hours : Option Int := none
  deriving DecidableEq

/-- `UpdateProjectInput`.  A `none` field is TypeScript `undefined`: left
unchanged by `updateProject`. -/
structure UpdateProjectInput where
  project_id : String
  name : Option String := none
  description : Option String := none
  status : Option String := none
  priority : Option String := none
  progress : Option Int := none
  budget : Option Int := none
  spent : Option Int := none
  due_date : Option String := none
  deriving DecidableEq

/-! ### Workspace operations (`src/tools/workspaces.ts`) -/

/-- Per-status project counts of a workspace summary. -/
structure ProjectCounts where
  total : Nat
  active : Nat
  completed : Nat
  planning : Nat
  on_hold : Nat
  deriving DecidableEq

/-- Per-status task counts (used by the summary and by `getProject`). -/
structure TaskCounts where
  total : Nat
  backlog : Nat
  todo : Nat
  in_progress : Nat
  review : Nat
  done : Nat
  deriving DecidableEq

/-- The per-status counts of a task list, as computed in the source. -/
def taskCountsOf (ts : List TaskRow) : TaskCounts :=
  { total := ts.length
    backlog := (ts.filter (fun t => t.status == "backlog")).length
    todo := (ts.filter (fun t => t.status == "todo")).length
    in_progress := (ts.filter (fun t => t.status == "in-progress")).length
    review := (ts.filter (fun t => t.status == "review")).length
    done := (ts.filter (fun t => t.status == "done")).length }

/-- `WorkspaceSummary` (`src/tools/workspaces.ts`). -/
structure WorkspaceSummary where
  workspace : WorkspaceRow
  projects : ProjectCounts
  tasks : TaskCounts
  team_members : Nat
  recent_projects : List ProjectRow
  deriving DecidableEq

/-- `listWorkspaces`: all workspaces, most-recently-updated first, optionally
capped when the limit argument is truthy. -/
def listWorkspaces (db : DB) (input : ListWorkspacesInput) : Outcome (List WorkspaceRow) :=
  if db.failWorkspacesSelect then
    (.err "Failed to list workspaces: backend error" (some "DATABASE_ERROR"), db, [.selectWorkspaces])
  else
    let sorted := db.workspaces.mergeSort updatedDescW
    let rows := if jsTruthyNum input.limit then sorted.take (input.limit.getD 0).toNat else sorted
    (.ok rows (some s!"Found {rows.length} workspace(s)"), db, [.selectWorkspaces])

/-- `getWorkspace`: existence check, then the single row. -/
def getWorkspace (db : DB) (input : GetWorkspaceInput) : Outcome WorkspaceRow :=
  if !(validateWorkspaceId db input.workspace_id) then
    (.err s!"Workspace with ID \"{input.workspace_id}\" not found." (some "WORKSPACE_NOT_FOUND"), db, [.selectWorkspaces])
  else if db.failWorkspacesSelect then
    (.err "Failed to get workspace: backend error" (some "DATABASE_ERROR"), db, [.selectWorkspaces, .selectWorkspaces])
  else
    match db.workspaces.find? (fun w => w.id == input.workspace_id) with
    | none =>
      (.err "Failed to get workspace: backend error" (some "DATABASE_ERROR"), db, [.selectWorkspaces, .selectWorkspaces])
    | some w =>
      (.ok w (some s!"Workspace: \"{w.name}\""), db, [.selectWorkspaces, .selectWorkspaces])

/-- The summary payload of `getWorkspaceSummary`: per-status counts and up
to five most-recently-updated active projects. -/
def summaryOf (db : DB) (ws : WorkspaceRow) (projs : List ProjectRow) (ts : List TaskRow) :
    WorkspaceSummary :=
  { workspace := ws
    projects :=
      { total := projs.length
        active := (projs.filter (fun p => p.status == "active")).length
        completed := (projs.filter (fun p => p.status == "completed")).length
        planning := (projs.filter (fun p => p.status == "planning")).length
        on_hold := (projs.filter (fun p => p.status == "on-hold")).length }
    tasks := taskCountsOf ts
    team_members := (db.teamMembers.filter (fun m => m.workspace_id == ws.id)).length
    recent_projects := ((projs.filter (fun p => p.status == "active")).mergeSort updatedDescP).take 5 }

/-- Assemble the success outcome of `getWorkspaceSummary` from the fetched
rows. -/
def mkSummary (db : DB) (ws : WorkspaceRow) (projs : List ProjectRow) (ts : List TaskRow)
    (trace : List GatewayCall) : Outcome WorkspaceSummary :=
  (.ok (summaryOf db ws projs ts)
    (some s!"Workspace \"{ws.name}\": {projs.length} projects, {ts.length} tasks"),
   db, trace)

/-- `getWorkspaceSummary`: validate, fetch workspace, projects, the projects'
tasks (skipping the task fetch when there are no projects), and team members;
count statuses and collect up to five most-recently-updated active projects. -/
def getWorkspaceSummary (db : DB) (workspaceId : String) : Outcome WorkspaceSummary :=
  if !(validateWorkspaceId db workspaceId) then
    (.err s!"Workspace with ID \"{workspaceId}\" not found." (some "WORKSPACE_NOT_FOUND"), db, [.selectWorkspaces])
  else if db.failWorkspacesSelect then
    (.err "Failed to get workspace: backend error" (some "DATABASE_ERROR"), db, [.selectWorkspaces, .selectWorkspaces])
  else
    match db.workspaces.find? (fun w => w.id == workspaceId) with
    | none =>
      (.err "Failed to get workspace: backend error" (some "DATABASE_ERROR"), db, [.selectWorkspaces, .selectWorkspaces])
    | some ws =>
      if db.failProjectsSelect then
        (.err "Failed to get projects: backend error" (some "DATABASE_ERROR"), db,
          [.selectWorkspaces, .selectWorkspaces, .selectProjects])
      else
        let projs := db.projects.filter (fun p => p.workspace_id == workspaceId)
        let projectIds := projs.map (fun p => p.id)
        if projectIds.isEmpty then
          let teamTrace := [GatewayCall.selectWorkspaces, .selectWorkspaces, .selectProjects, .selectTeamMembers]
          if db.failTeamMembersSelect then
            (.err "Failed to get team members: backend error" (some "DATABASE_ERROR"), db, teamTrace)
          else
            mkSummary db ws projs ([] : List TaskRow) teamTrace
        else
          let fullTrace := [GatewayCall.selectWorkspaces, .selectWorkspaces, .selectProjects, .selectTasks, .selectTeamMembers]
          if db.failTasksSelect then
            (.err "Failed to get tasks: backend error" (some "DATABASE_ERROR"), db,
              [.selectWorkspaces, .selectWorkspaces, .selectProjects, .selectTasks])
          else
            let ts := db.tasks.filter (fun t => projectIds.contains t.project_id)
            if db.failTeamMembersSelect then
              (.err "Failed to get team members: backend error" (some "DATABASE_ERROR"), db, fullTrace)
            else
              mkSummary db ws projs ts fullTrace

/-- `getWorkInProgress`: all in-progress or review tasks of the workspace's
projects, most-recently-updated first; an empty project set short-circuits to
an empty success. -/
def getWorkInProgress (db : DB) (workspaceId : String) : Outcome (List TaskRow) :=
  if !(validateWorkspaceId db workspaceId) then
    (.err s!"Workspace with ID \"{workspaceId}\" not found." (some "WORKSPACE_NOT_FOUND"), db, [.selectWorkspaces])
  else if db.failProjectsSelect then
    (.err "Failed to get projects: backend error" (some "DATABASE_ERROR"), db, [.selectWorkspaces, .selectProjects])
  else
    let projectIds := (db.projects.filter (fun p => p.workspace_id == workspaceId)).map (fun p => p.id)
    if projectIds.isEmpty then
      (.ok [] (some "No projects in workspace"), db, [.selectWorkspaces, .selectProjects])
    else if db.failTasksSelect then
      (.err "Failed to get tasks: backend error" (some "DATABASE_ERROR"), db,
        [.selectWorkspaces, .selectProjects, .selectTasks])
    else
      let ts := (db.tasks.filter (fun t =>
        projectIds.contains t.project_id && (t.status == "in-progress" || t.status == "review"))).mergeSort updatedDescT
      (.ok ts (some s!"{ts.length} task(s) in progress or review"), db,
        [.selectWorkspaces, .selectProjects, .selectTasks])

/-! ### Project operations (`src/tools/projects.ts`) -/

/-- Payload of `getProject`: the project joined with its tasks and their
counts, or the bare row when tasks are excluded. -/
inductive ProjectDetail where
  | withTasks (project : ProjectRow) (tasks : List TaskRow) (task_counts : TaskCounts)
  | bare (project : ProjectRow)
  deriving DecidableEq

/-- `listProjects`: resolve the workspace id from the argument or the default
(JavaScript `||`), fail `MISSING_WORKSPACE_ID` before any store request when
neither is truthy, validate existence, then list with optional status filter
and limit, most-recently-updated first. -/
def listProjects (cfg : Config) (db : DB) (input : ListProjectsInput) : Outcome (List ProjectRow) :=
  let workspaceId := jsOrStr input.workspace_id cfg.defaultWorkspaceId
  if !(jsTruthyStr workspaceId) then
    (.err "workspace_id is required. Either provide it or set DEFAULT_WORKSPACE_ID." (some "MISSING_WORKSPACE_ID"), db, [])
  else
    let wid := workspaceId.getD ""
    if !(validateWorkspaceId db wid) then
      (.err s!"Workspace with ID \"{wid}\" not found." (some "WORKSPACE_NOT_FOUND"), db, [.selectWorkspaces])
    else if db.failProjectsSelect then
      (.err "Failed to list projects: backend error" (some "DATABASE_ERROR"), db, [.selectWorkspaces, .selectProjects])
    else
      let filtered := db.projects.filter (fun p =>
        p.workspace_id == wid &&
          (!(jsTruthyStr input.status) || p.status == input.status.getD ""))
      let sorted := filtered.mergeSort updatedDescP
      let rows := if jsTruthyNum input.limit then sorted.take (input.limit.getD 0).toNat else sorted
      (.ok rows (some s!"Found {rows.length} project(s)"), db, [.selectWorkspaces, .selectProjects])

/-- JavaScript `v !== false` on an optional boolean (`include_tasks`). -/
def jsNotFalse : Option Bool → Bool
  | some false => false
  | _ => true

/-- `getProject`: validate, then either the joined project-with-tasks payload
plus task counts, or the bare row when `include_tasks` is `false`. -/
def getProject (db : DB) (input : GetProjectInput) : Outcome ProjectDetail :=
  if !(validateProjectId db input.project_id) then
    (.err s!"Project with ID \"{input.project_id}\" not found." (some "PROJECT_NOT_FOUND"), db, [.selectProjects])
  else if db.failProjectsSelect then
    (.err "Failed to get project: backend error" (some "DATABASE_ERROR"), db, [.selectProjects, .selectProjects])
  else
    match db.projects.find? (fun p => p.id == input.project_id) with
    | none =>
      (.err "Failed to get project: backend error" (some "DATABASE_ERROR"), db, [.selectProjects, .selectProjects])
    | some p =>
      if jsNotFalse input.include_tasks then
        let ts := db.tasks.filter (fun t => t.project_id == input.project_id)
        let counts := taskCountsOf ts
        (.ok (.withTasks p ts counts) (some s!"Project \"{p.name}\" with {counts.total} task(s)"), db,
          [.selectProjects, .selectProjects])
      else
        (.ok (.bare p) (some s!"Project \"{p.name}\""), db, [.selectProjects, .selectProjects])

/-- The row `createProject` inserts: the source's defaults, with falsy
optional fields coalesced to null by `|| null`, progress fixed at `0`, and
both timestamps stamped with `now`. -/
def newProjectRow (db : DB) (now : Nat) (input : CreateProjectInput) : ProjectRow :=
  { id := s!"row-{db.nextId}"
    workspace_id := input.workspace_id
    name := input.name
    description := jsOrNullStr input.description
    status := jsOrElseStr input.status "planning"
    priority := jsOrElseStr input.priority "medium"
    progress := 0
    budget := jsOrNullNum input.budget
    spent := none
    due_date := jsOrNullStr input.due_date
    client_id := jsOrNullStr input.client_id
    team_size := none
    item_type := "project"
    estimated_duration_hours := jsOrNullNum input.estimated_duration_hours
    created_at := now
    updated_at := now }

/-- `createProject`: validate the workspace, then insert `newProjectRow`. -/
def createProject (db : DB) (now : Nat) (input : CreateProjectInput) : Outcome ProjectRow :=
  if !(validateWorkspaceId db input.workspace_id) then
    (.err s!"Workspace with ID \"{input.workspace_id}\" not found." (some "WORKSPACE_NOT_FOUND"), db, [.selectWorkspaces])
  else if db.failProjectsWrite then
    (.err "Failed to create project: backend error" (some "DATABASE_ERROR"), db, [.selectWorkspaces, .insertProjects])
  else
    let row := newProjectRow db now input
    let db1 := { db with projects := db.projects ++ [row], nextId := db.nextId + 1 }
    (.ok row (some s!"Created project \"{row.name}\" (ID: {row.id})"), db1, [.selectWorkspaces, .insertProjects])

/-- The partial update `updateProject` builds: only explicitly present fields
are applied, `progress` is clamped, and the update timestamp is refreshed. -/
def applyProjectUpdate (now : Nat) (input : UpdateProjectInput) (p : ProjectRow) : ProjectRow :=
  { p with
    updated_at := now
    name := input.name.getD p.name
    description := match input.description with | some d => some d | none => p.description
    status := input.status.getD p.status
    priority := input.priority.getD p.priority
    progress := match input.progress with | some pr => clampProgress pr | none => p.progress
    budget := match input.budget with | some b => some b | none => p.budget
    spent := match input.spent with | some s => some s | none => p.spent
    due_date := match input.due_date with | some d => some d | none => p.due_date }

/-- `updateProject`: validate existence, apply the present fields to the
stored row, and return the updated row. -/
def updateProject (db : DB) (now : Nat) (input : UpdateProjectInput) : Outcome ProjectRow :=
  if !(validateProjectId db input.project_id) then
    (.err s!"Project with ID \"{input.project_id}\" not found." (some "PROJECT_NOT_FOUND"), db, [.selectProjects])
  else if db.failProjectsWrite then
    (.err "Failed to update project: backend error" (some "DATABASE_ERROR"), db, [.selectProjects, .updateProjects])
  else
    match db.projects.find? (fun p => p.id == input.project_id) with
    | none =>
      (.err "Failed to update project: backend error" (some "DATABASE_ERROR"), db, [.selectProjects, .updateProjects])
    | some p =>
      let updated := applyProjectUpdate now input p
      let newProjects := db.projects.map (fun q =>
        if q.id == input.project_id then applyProjectUpdate now input q else q)
      let db1 := { db with projects := newProjects }
      (.ok updated (some s!"Updated project \"{updated.name}\""), db1, [.selectProjects, .updateProjects])

/-- `updateProjectProgress`: the convenience wrapper, pre-clamping progress
and delegating to `updateProject` with only that field set. -/
def updateProjectProgress (db : DB) (now : Nat) (projectId : String) (progress : Int) : Outcome ProjectRow :=
  updateProject db now { project_id := projectId, progress := some (clampProgress progress) }

/-- `syncProjectProgress`: compute, then write; a compute failure is returned
directly (the source re-tags the same error result) without the write. -/
def syncProjectProgress (db : DB) (now : Nat) (projectId : String) : Outcome ProjectRow :=
  match calculateProjectProgress db projectId with
  | (.ok p _, db1, c1) =>
    let (r, db2, c2) := updateProjectProgress db1 now projectId (p : Int)
    (r, db2, c1 ++ c2)
  | (.err e c, db1, c1) => (.err e c, db1, c1)

/-! ### Task operations

The repository dispatches to `src/tools/tasks.ts`, whose source is not part
of the provided tree; the operations below are therefore modelled from the
specification (§4.5), faithful to its words and to the idioms of the sibling
modules that are present. -/

/-- `CreateTaskInput` (`src/types/index.ts`). -/
structure CreateTaskInput where
  project_id : String
  title : String
  description : Option String := none
  status : Option String := none
  priority : Option String := none
  assignee : Option String := none
  due_date : Option String := none
  tags : Option (List String) := none
  deriving DecidableEq

/-- `UpdateTaskInput` (`src/types/index.ts`). -/
structure UpdateTaskInput where
  task_id : String
  title : Option String := none
  description : Option String := none
  status : Option String := none
  priority : Option String := none
  assignee : Option String := none
  due_date : Option String := none
  tags : Option (List String) := none
  deriving DecidableEq

/-- `MoveTaskInput` (`src/types/index.ts`); the status arrives as an
unvalidated string from the dispatcher. -/
structure MoveTaskInput where
  task_id : String
  new_status : String
  deriving DecidableEq

/-- `SearchTasksInput` (`src/types/index.ts`). -/
structure SearchTasksInput where
  query : String
  workspace_id : Option String := none
  project_id : Option String := none
  status : Option String := none
  limit : Option Int := none
  deriving DecidableEq

/-- The minimal owning-project projection joined onto task results. -/
structure ProjectRef where
  id : String
  name : String
  workspace_id : String
  deriving DecidableEq

/-- A task joined with its owning project (`TaskWithProject`). -/
structure TaskWithProject where
  task : TaskRow
  project : ProjectRef
  deriving DecidableEq

/-- The deletion confirmation payload of `deleteTask`. -/
structure DeleteConfirmation where
  task_id : String
  title : String
  deriving DecidableEq

/-- Lower-cased character list of a string (JavaScript `toLowerCase`). -/
def lowerChars (s : String) : List Char := s.data.map Char.toLower

/-- Substring test on character lists (JavaScript `includes`). -/
def charsInfix (needle hay : List Char) : Bool :=
  hay.tails.any (fun t => needle.isPrefixOf t)

/-- JavaScript `v || d` on an optional number with a numeric default. -/
def jsOrElseNum (v : Option Int) (d : Int) : Int :=
  if jsTruthyNum v then v.getD d else d

/-- Modelled from the spec: `getNextTaskOrder` reads the maximum `order`
among the project's tasks and returns it plus one, or `0` for a task-less
project (§4.5; `src/tools/tasks.ts` is not in the provided tree). -/
def getNextTaskOrder (db : DB) (projectId : String) : Int :=
  match (db.tasks.filter (fun t => t.project_id == projectId)).map (fun t => t.order) with
  | [] => 0
  | o :: rest => rest.foldl max o + 1

/-- Modelled from the spec: `createTask` validates the project, defaults
status to `todo` and priority to `medium`, computes `order` via
`getNextTaskOrder`, inserts, then invokes the Synchronizer on the owning
project and returns the created row (§4.5; source file absent). -/
def createTask (db : DB) (now : Nat) (input : CreateTaskInput) : Outcome TaskRow :=
  if !(validateProjectId db input.project_id) then
    (.err s!"Project with ID \"{input.project_id}\" not found." (some "PROJECT_NOT_FOUND"), db, [.selectProjects])
  else if db.failTasksSelect then
    (.err "Failed to create task: backend error" (some "DATABASE_ERROR"), db, [.selectProjects, .selectTasks])
  else if db.failTasksWrite then
    (.err "Failed to create task: backend error" (some "DATABASE_ERROR"), db,
      [.selectProjects, .selectTasks, .insertTasks])
  else
    let row : TaskRow :=
      { id := s!"row-{db.nextId}"
        project_id := input.project_id
        title := input.title
        description := jsOrNullStr input.description
        status := jsOrElseStr input.status "todo"
        priority := jsOrElseStr input.priority "medium"
        assignee := jsOrNullStr input.assignee
        due_date := jsOrNullStr input.due_date
        tags := input.tags
        order := getNextTaskOrder db input.project_id
        created_at := now
        updated_at := now }
    let db1 := { db with tasks := db.tasks ++ [row], nextId := db.nextId + 1 }
    let sync := syncProjectProgress db1 now input.project_id
    (.ok row (some s!"Created task \"{row.title}\" (ID: {row.id})"), sync.2.1,
      [.selectProjects, .selectTasks, .insertTasks] ++ sync.2.2)

/-- Modelled from the spec: `getTask` fetches the task joined with a minimal
projection of its owning project, `TASK_NOT_FOUND` when absent (§4.5; source
file absent).  A dangling `project_id` surfaces as a backend error. -/
def getTask (db : DB) (taskId : String) : Outcome TaskWithProject :=
  if db.failTasksSelect then
    (.err "Failed to get task: backend error" (some "DATABASE_ERROR"), db, [.selectTasks])
  else
    match db.tasks.find? (fun t => t.id == taskId) with
    | none => (.err s!"Task with ID \"{taskId}\" not found." (some "TASK_NOT_FOUND"), db, [.selectTasks])
    | some t =>
      match db.projects.find? (fun p => p.id == t.project_id) with
      | none => (.err "Failed to get task: backend error" (some "DATABASE_ERROR"), db, [.selectTasks])
      | some p =>
        (.ok { task := t, project := { id := p.id, name := p.name, workspace_id := p.workspace_id } }
          (some s!"Task \"{t.title}\""), db, [.selectTasks])

/-- The partial update `updateTask` builds: only explicitly present fields
are applied and the update timestamp is refreshed (spec §4.5). -/
def applyTaskUpdate (now : Nat) (input : UpdateTaskInput) (t : TaskRow) : TaskRow :=
  { t with
    updated_at := now
    title := input.title.getD t.title
    description := match input.description with | some d => some d | none => t.description
    status := input.status.getD t.status
    priority := input.priority.getD t.priority
    assignee := match input.assignee with | some a => some a | none => t.assignee
    due_date := match input.due_date with | some d => some d | none => t.due_date
    tags := match input.tags with | some g => some g | none => t.tags }

/-- Modelled from the spec: `updateTask` fetches the current task first (for
its `project_id`), applies only present fields, refreshes the timestamp, and
invokes the Synchronizer when `status` was among the changed fields (§4.5;
source file absent). -/
def updateTask (db : DB) (now : Nat) (input : UpdateTaskInput) : Outcome TaskRow :=
  if db.failTasksSelect then
    (.err "Failed to get task: backend error" (some "DATABASE_ERROR"), db, [.selectTasks])
  else
    match db.tasks.find? (fun t => t.id == input.task_id) with
    | none => (.err s!"Task with ID \"{input.task_id}\" not found." (some "TASK_NOT_FOUND"), db, [.selectTasks])
    | some t =>
      if db.failTasksWrite then
        (.err "Failed to update task: backend error" (some "DATABASE_ERROR"), db, [.selectTasks, .updateTasks])
      else
        let updated := applyTaskUpdate now input t
        let newTasks := db.tasks.map (fun x => if x.id == input.task_id then applyTaskUpdate now input x else x)
        let db1 := { db with tasks := newTasks }
        match input.status with
        | some _ =>
          let sync := syncProjectProgress db1 now t.project_id
          (.ok updated (some s!"Updated task \"{updated.title}\""), sync.2.1,
            [.selectTasks, .updateTasks] ++ sync.2.2)
        | none =>
          (.ok updated (some s!"Updated task \"{updated.title}\""), db1, [.selectTasks, .updateTasks])

/-- Modelled from the spec: `moveTask` validates the new status against the
five recognized values before touching the store (`INVALID_STATUS` otherwise,
listing the valid set), fetches the task (`TASK_NOT_FOUND` otherwise), writes
the new status with a refreshed timestamp, always invokes the Synchronizer
afterward, and reports the previous status in its message (§4.5; source file
absent). -/
def moveTask (db : DB) (now : Nat) (input : MoveTaskInput) : Outcome TaskRow :=
  if !(validTaskStatuses.contains input.new_status) then
    (.err ("Invalid status \"" ++ input.new_status ++ "\". Valid statuses: " ++
      String.intercalate ", " validTaskStatuses) (some "INVALID_STATUS"), db, [])
  else if db.failTasksSelect then
    (.err "Failed to get task: backend error" (some "DATABASE_ERROR"), db, [.selectTasks])
  else
    match db.tasks.find? (fun t => t.id == input.task_id) with
    | none => (.err s!"Task with ID \"{input.task_id}\" not found." (some "TASK_NOT_FOUND"), db, [.selectTasks])
    | some t =>
      if db.failTasksWrite then
        (.err "Failed to move task: backend error" (some "DATABASE_ERROR"), db, [.selectTasks, .updateTasks])
      else
        let previous := t.status
        let updated := { t with status := input.new_status, updated_at := now }
        let newTasks := db.tasks.map (fun x =>
          if x.id == input.task_id then { x with status := input.new_status, updated_at := now } else x)
        let db1 := { db with tasks := newTasks }
        let sync := syncProjectProgress db1 now t.project_id
        (.ok updated (some s!"Task moved from {previous} to {input.new_status}"), sync.2.1,
          [.selectTasks, .updateTasks] ++ sync.2.2)

/-- Modelled from the spec: `startTask` is `moveTask` fixed to in-progress. -/
def startTask (db : DB) (now : Nat) (taskId : String) : Outcome TaskRow :=
  moveTask db now { task_id := taskId, new_status := "in-progress" }

/-- Modelled from the spec: `completeTask` is `moveTask` fixed to done. -/
def completeTask (db : DB) (now : Nat) (taskId : String) : Outcome TaskRow :=
  moveTask db now { task_id := taskId, new_status := "done" }

/-- Modelled from the spec: `reviewTask` is `moveTask` fixed to review. -/
def reviewTask (db : DB) (now : Nat) (taskId : String) : Outcome TaskRow :=
  moveTask db now { task_id := taskId, new_status := "review" }

/-- Modelled from the spec: `searchTasks` matches the query case-insensitively
against title or description, narrows by project and status, orders by
most-recently-updated, applies the limit (default 20) before the client-side
workspace filter, and joins the owning-project projection (§4.5; source file
absent). -/
def searchTasks (db : DB) (input : SearchTasksInput) : Outcome (List TaskWithProject) :=
  if db.failTasksSelect then
    (.err "Failed to search tasks: backend error" (some "DATABASE_ERROR"), db, [.selectTasks])
  else
    let q := lowerChars input.query
    let matched := db.tasks.filter (fun t =>
      charsInfix q (lowerChars t.title) ||
        (match t.description with | some d => charsInfix q (lowerChars d) | none => false))
    let byProject :=
      if jsTruthyStr input.project_id then
        matched.filter (fun t => t.project_id == input.project_id.getD "")
      else matched
    let byStatus :=
      if jsTruthyStr input.status then
        byProject.filter (fun t => t.status == input.status.getD "")
      else byProject
    let sorted := byStatus.mergeSort updatedDescT
    let limited := sorted.take (jsOrElseNum input.limit 20).toNat
    let joined := limited.filterMap (fun t =>
      (db.projects.find? (fun p => p.id == t.project_id)).map (fun p =>
        TaskWithProject.mk t { id := p.id, name := p.name, workspace_id := p.workspace_id }))
    let results :=
      if jsTruthyStr input.workspace_id then
        joined.filter (fun r => r.project.workspace_id == input.workspace_id.getD "")
      else joined
    (.ok results (some s!"Found {results.length} task(s)"), db, [.selectTasks])

/-- Modelled from the spec: `listProjectTasks` validates the project, then
lists its tasks in ascending `order`, optionally filtered by exact status
(§4.5; source file absent). -/
def listProjectTasks (db : DB) (projectId : String) (status : Option String) : Outcome (List TaskRow) :=
  if !(validateProjectId db projectId) then
    (.err s!"Project with ID \"{projectId}\" not found." (some "PROJECT_NOT_FOUND"), db, [.selectProjects])
  else if db.failTasksSelect then
    (.err "Failed to list tasks: backend error" (some "DATABASE_ERROR"), db, [.selectProjects, .selectTasks])
  else
    let ts := db.tasks.filter (fun t =>
      t.project_id == projectId && (!(jsTruthyStr status) || t.status == status.getD ""))
    let sorted := ts.mergeSort orderAscT
    (.ok sorted (some s!"Found {sorted.length} task(s)"), db, [.selectProjects, .selectTasks])

/-- Modelled from the spec: `deleteTask` fetches the task first (for its
`project_id` and title), deletes it, invokes the Synchronizer on the former
owning project, and returns a confirmation payload (§4.5; source file
absent). -/
def deleteTask (db : DB) (now : Nat) (taskId : String) : Outcome DeleteConfirmation :=
  if db.failTasksSelect then
    (.err "Failed to get task: backend error" (some "DATABASE_ERROR"), db, [.selectTasks])
  else
    match db.tasks.find? (fun t => t.id == taskId) with
    | none => (.err s!"Task with ID \"{taskId}\" not found." (some "TASK_NOT_FOUND"), db, [.selectTasks])
    | some t =>
      if db.failTasksWrite then
        (.err "Failed to delete task: backend error" (some "DATABASE_ERROR"), db, [.selectTasks, .deleteTasks])
      else
        let db1 := { db with tasks := db.tasks.filter (fun x => !(x.id == taskId)) }
        let sync := syncProjectProgress db1 now t.project_id
        (.ok { task_id := taskId, title := t.title } (some s!"Deleted task \"{t.title}\""), sync.2.1,
          [.selectTasks, .deleteTasks] ++ sync.2.2)

/-! ### Tool registry and dispatcher (`src/index.ts`) -/

/-- The operation names of the static tool catalog (`TOOLS` in
`src/index.ts`), in declaration order. -/
def TOOL_NAMES : List String :=
  ["list_workspaces", "get_workspace", "get_workspace_summary", "get_work_in_progress",
   "list_projects", "get_project", "create_project", "update_project", "update_project_progress",
   "create_task", "get_task", "update_task", "move_task", "start_task", "complete_task",
   "review_task", "search_tasks", "list_project_tasks", "delete_task"]

/-- The loosely-typed argument bag handed to the dispatcher
(`Record<string, unknown>`); absent keys are `none`. -/
structure Args where
  workspace_id : Option String := none
  project_id : Option String := none
  task_id : Option String := none
  name : Option String := none
  title : Option String := none
  description : Option String := none
  status : Option String := none
  new_status : Option String := none
  priority : Option String := none
  assignee : Option String := none
  due_date : Option String := none
  query : Option String := none
  tags : Option (List String) := none
  progress : Option Int := none
  budget : Option Int := none
  spent : Option Int := none
  estimated_duration_hours : Option Int := none
  limit : Option Int := none
  include_tasks : Option Bool := none
  deriving DecidableEq

/-- The union of payloads the dispatcher can return (`ToolResult<unknown>`
at the TypeScript boundary). -/
inductive ToolData where
  | workspaces (rows : List WorkspaceRow)
  | workspace (row : WorkspaceRow)
  | summary (s : WorkspaceSummary)
  | projectList (rows : List ProjectRow)
  | projectDetail (d : ProjectDetail)
  | project (row : ProjectRow)
  | taskList (rows : List TaskRow)
  | task (row : TaskRow)
  | taskDetail (t : TaskWithProject)
  | searchResults (rows : List TaskWithProject)
  | deleted (c : DeleteConfirmation)
  deriving DecidableEq

/-- Lift a payload injection over a whole operation outcome. -/
def mapOutcome {α : Type} (f : α → ToolData) (o : Outcome α) : Outcome ToolData :=
  (o.1.map f, o.2.1, o.2.2)

/-- `handleToolCall` (`src/index.ts`): route by exact name to one entity
operation, forwarding the cast arguments; unknown names produce the
`UNKNOWN_TOOL` error without invoking any operation.  A missing required
string argument is forwarded as the empty string, standing for the
`undefined` that the TypeScript cast would produce (both fail every
existence check alike). -/
def handleToolCall (cfg : Config) (db : DB) (now : Nat) (name : String) (args : Args) : Outcome ToolData :=
  match name with
  | "list_workspaces" => mapOutcome .workspaces (listWorkspaces db { limit := args.limit })
  | "get_workspace" => mapOutcome .workspace (getWorkspace db { workspace_id := args.workspace_id.getD "" })
  | "get_workspace_summary" => mapOutcome .summary (getWorkspaceSummary db (args.workspace_id.getD ""))
  | "get_work_in_progress" => mapOutcome .taskList (getWorkInProgress db (args.workspace_id.getD ""))
  | "list_projects" => mapOutcome .projectList (listProjects cfg db
      { workspace_id := args.workspace_id, status := args.status, limit := args.limit })
  | "get_project" => mapOutcome .projectDetail (getProject db
      { project_id := args.project_id.getD "", include_tasks := args.include_tasks })
  | "create_project" => mapOutcome .project (createProject db now
      { workspace_id := args.workspace_id.getD "", name := args.name.getD "",
        description := args.description, status := args.status, priority := args.priority,
        budget := args.budget, due_date := args.due_date,
        estimated_duration_hours := args.estimated_duration_hours })
  | "update_project" => mapOutcome .project (updateProject db now
      { project_id := args.project_id.getD "", name := args.name, description := args.description,
        status := args.status, priority := args.priority, progress := args.progress,
        budget := args.budget, spent := args.spent, due_date := args.due_date })
  | "update_project_progress" => mapOutcome .project (updateProjectProgress db now
      (args.project_id.getD "") (args.progress.getD 0))
  | "create_task" => mapOutcome .task (createTask db now
      { project_id := args.project_id.getD "", title := args.title.getD "",
        description := args.description, status := args.status, priority := args.priority,
        assignee := args.assignee, due_date := args.due_date, tags := args.tags })
  | "get_task" => mapOutcome .taskDetail (getTask db (args.task_id.getD ""))
  | "update_task" => mapOutcome .task (updateTask db now
      { task_id := args.task_id.getD "", title := args.title, description := args.description,
        status := args.status, priority := args.priority, assignee := args.assignee,
        due_date := args.due_date, tags := args.tags })
  | "move_task" => mapOutcome .task (moveTask db now
      { task_id := args.task_id.getD "", new_status := args.new_status.getD "" })
  | "start_task" => mapOutcome .task (startTask db now (args.task_id.getD ""))
  | "complete_task" => mapOutcome .task (completeTask db now (args.task_id.getD ""))
  | "review_task" => mapOutcome .task (reviewTask db now (args.task_id.getD ""))
  | "search_tasks" => mapOutcome .searchResults (searchTasks db
      { query := args.query.getD "", workspace_id := args.workspace_id,
        project_id := args.project_id, status := args.status, limit := args.limit })
  | "list_project_tasks" => mapOutcome .taskList (listProjectTasks db (args.project_id.getD "") args.status)
  | "delete_task" => mapOutcome .deleted (deleteTask db now (args.task_id.getD ""))
  | _ => (.err ("Unknown tool: " ++ name) (some "UNKNOWN_TOOL"), db, [])

/-! ### Concrete fixtures used by witnesses and counterexamples -/

/-- A sample workspace row. -/
def sampleWorkspace : WorkspaceRow :=
  { id := "w1", name := "Test Workspace", color := "#8B5CF6", logo := none, owner_id := none,
    created_at := 0, updated_at := 0 }

/-- A sample project row in `sampleWorkspace`. -/
def sampleProject : ProjectRow :=
  { id := "p1", workspace_id := "w1", name := "Test Project", description := none,
    status := "active", priority := "medium", progress := 0, budget := none, spent := none,
    due_date := none, client_id := none, team_size := none, item_type := "project",
    estimated_duration_hours := none, created_at := 0, updated_at := 0 }

/-- A sample task in `sampleProject` with the given status and update time. -/
def mkTask (status : String) (upd : Nat) : TaskRow :=
  { id := "t", project_id := "p1", title := "task", description := none, status := status,
    priority := "medium", assignee := none, due_date := none, tags := none, order := 0,
    created_at := 0, updated_at := upd }

/-- One workspace, one project, three tasks with statuses done, in-progress,
todo (the scenario of the status-counting property). -/
def dbThree : DB :=
  { workspaces := [sampleWorkspace], projects := [sampleProject],
    tasks := [mkTask "done" 1, mkTask "in-progress" 2, mkTask "todo" 3], teamMembers := [] }

/-- One project with forty tasks of which twenty-three are done: the input on
which the floating-point progress computation and exact rounding disagree. -/
def db40 : DB :=
  { workspaces := [sampleWorkspace], projects := [sampleProject],
    tasks := (List.range 40).map (fun i => mkTask (if i < 23 then "done" else "todo") 0),
    teamMembers := [] }

/-- A workspace with no projects at all. -/
def dbNoProjects : DB :=
  { workspaces := [sampleWorkspace], projects := [], tasks := [], teamMembers := [] }

/-! ### Claim C1 -/

/-- Claim C1, counterexample: the claim says `calculateProjectProgress`
carries `round(100 * done_count / total_count)`, but on a project with 40
tasks of which 23 are done the source's IEEE-double computation
`Math.round((23 / 40) * 100)` evaluates `(23 / 40) * 100` to slightly below
`57.5` and returns `57`, while exact rounding of `57.5` gives `58`. -/
theorem c1_counterexample_fp_rounding :
    ((calculateProjectProgress db40 "p1").1).dataOf = some 57 ∧
    roundSpec 23 40 = 58 ∧ (57 : Nat) ≠ 58 := by decide

/-- Claim C1 (amended): for every project, `calculateProjectProgress` returns
a success carrying 0 with an explanatory message when the project has zero
tasks, and otherwise carries the IEEE-double evaluation of
`Math.round((done_count / total_count) * 100)` — which agrees with
`round(100 * done_count / total_count)` except where floating-point error
crosses a half-integer boundary — and in particular returns 33 for three
tasks with statuses done, in-progress, todo. -/
theorem c1_calculateProjectProgress (db : DB) (pid : String) (h : db.failTasksSelect = false) :
    (db.tasks.filter (fun t => t.project_id == pid) = [] →
      (calculateProjectProgress db pid).1 = .ok 0 (some "No tasks in project")) ∧
    (∀ ts, ts = db.tasks.filter (fun t => t.project_id == pid) → ts ≠ [] →
      ((calculateProjectProgress db pid).1).dataOf =
        some (jsProgressRound (ts.filter (fun t => t.status == "done")).length ts.length)) ∧
    ((calculateProjectProgress dbThree "p1").1).dataOf = some 33 := by
  refine ⟨?_, ?_, by decide⟩
  · intro hset
    simp [calculateProjectProgress, h, hset]
  · intro ts hts hne
    subst hts
    simp [calculateProjectProgress, h, hne, ToolResult.dataOf]

/-- Claim C1, witness: the amended theorem applied to the three-task
fixture. -/
theorem c1_calculateProjectProgress_witness :
    dbThree.failTasksSelect = false ∧
    ((calculateProjectProgress dbThree "p1").1).dataOf = some 33 :=
  ⟨rfl, (c1_calculateProjectProgress dbThree "p1" rfl).2.2⟩

/-! ### Claim C2 -/

/-- The clamp is idempotent, so pre-clamping in `updateProjectProgress`
followed by the clamp in `updateProject` stores a single clamp. -/
lemma clampProgress_idem (p : Int) : clampProgress (clampProgress p) = clampProgress p := by
  unfold clampProgress
  omega

/-- After a successful `updateProject` carrying a progress value, every
stored row with the targeted id holds the clamped value. -/
lemma updateProject_progress_mem (db : DB) (now : Nat) (input : UpdateProjectInput) (p : Int)
    (hp : input.progress = some p) (hv : validateProjectId db input.project_id = true)
    (hw : db.failProjectsWrite = false) :
    ∀ q ∈ ((updateProject db now input).2.1).projects, q.id = input.project_id →
      q.progress = clampProgress p := by
  intro q hq hid
  have hvp := hv
  unfold validateProjectId at hvp
  rw [Bool.and_eq_true] at hvp
  obtain ⟨hflag, hany⟩ := hvp
  rw [List.any_eq_true] at hany
  obtain ⟨p0, hp0mem, hp0eq⟩ := hany
  have hfind : (db.projects.find? (fun r => r.id == input.project_id)).isSome := by
    rw [List.find?_isSome]
    exact ⟨p0, hp0mem, hp0eq⟩
  obtain ⟨r0, hr0⟩ := Option.isSome_iff_exists.mp hfind
  simp only [updateProject, hv, hw, Bool.not_true, Bool.false_eq_true, if_false, hr0] at hq
  rw [List.mem_map] at hq
  obtain ⟨orig, horig, rfl⟩ := hq
  by_cases hcase : (orig.id == input.project_id) = true
  · simp only [hcase, if_true]
    simp [applyProjectUpdate, hp]
  · simp only [hcase, if_false] at hid ⊢
    simp only [beq_iff_eq] at hcase
    exact absurd hid hcase

/-- Claim C2: every progress value supplied to `updateProject` or to
`updateProjectProgress` is stored clamped to `[0, 100]` via
`Math.min(100, Math.max(0, value))`. -/
theorem c2_progress_clamped (db : DB) (now : Nat) (input : UpdateProjectInput) (p : Int)
    (hp : input.progress = some p) (hv : validateProjectId db input.project_id = true)
    (hw : db.failProjectsWrite = false) :
    (∀ q ∈ ((updateProject db now input).2.1).projects, q.id = input.project_id →
      q.progress = min 100 (max 0 p)) ∧
    (∀ q ∈ ((updateProjectProgress db now input.project_id p).2.1).projects,
      q.id = input.project_id → q.progress = min 100 (max 0 p)) := by
  constructor
  · intro q hq hid
    simpa [clampProgress] using updateProject_progress_mem db now input p hp hv hw q hq hid
  · intro q hq hid
    rw [updateProjectProgress] at hq
    have h2 := updateProject_progress_mem db now
      { project_id := input.project_id, progress := some (clampProgress p) }
      (clampProgress p) rfl hv hw q hq hid
    rw [clampProgress_idem] at h2
    simpa [clampProgress] using h2

/-- Claim C2, witness: on the sample store, progress `-10` is stored as `0`,
`150` as `100`, and `50` as `50`. -/
theorem c2_progress_clamped_witness :
    validateProjectId dbThree "p1" = true ∧ dbThree.failProjectsWrite = false ∧
    (∀ q ∈ ((updateProjectProgress dbThree 7 "p1" (-10)).2.1).projects, q.id = "p1" →
      q.progress = 0) ∧
    (∀ q ∈ ((updateProjectProgress dbThree 7 "p1" 150).2.1).projects, q.id = "p1" →
      q.progress = 100) ∧
    (∀ q ∈ ((updateProjectProgress dbThree 7 "p1" 50).2.1).projects, q.id = "p1" →
      q.progress = 50) := by
  refine ⟨by decide, rfl, ?_, ?_, ?_⟩
  · intro q hq hid
    have h := (c2_progress_clamped dbThree 7 { project_id := "p1", progress := some (-10) }
      (-10) rfl (by decide) rfl).2 q hq hid
    rw [h]
    decide
  · intro q hq hid
    have h := (c2_progress_clamped dbThree 7 { project_id := "p1", progress := some 150 }
      150 rfl (by decide) rfl).2 q hq hid
    rw [h]
    decide
  · intro q hq hid
    have h := (c2_progress_clamped dbThree 7 { project_id := "p1", progress := some 50 }
      50 rfl (by decide) rfl).2 q hq hid
    rw [h]
    decide

/-! ### Claim C3 -/

/-- `calculateProjectProgress` never mutates the store and issues exactly one
task select. -/
lemma calculateProjectProgress_state (db : DB) (pid : String) :
    (calculateProjectProgress db pid).2.1 = db ∧
    (calculateProjectProgress db pid).2.2 = [GatewayCall.selectTasks] := by
  by_cases h1 : db.failTasksSelect
  · simp [calculateProjectProgress, h1]
  · by_cases h2 : (db.tasks.filter (fun t => t.project_id == pid)).isEmpty
    · simp [calculateProjectProgress, h1, h2]
    · simp [calculateProjectProgress, h1, h2]

/-- Claim C3: `syncProjectProgress` first computes via
`calculateProjectProgress` and then writes via `updateProjectProgress`; a
compute error is returned directly, the store is left untouched, and no
write request is issued. -/
theorem c3_syncProjectProgress (db : DB) (now : Nat) (pid : String) :
    (∀ e c, (calculateProjectProgress db pid).1 = .err e c →
      syncProjectProgress db now pid = (.err e c, db, [GatewayCall.selectTasks])) ∧
    (∀ p m, (calculateProjectProgress db pid).1 = .ok p m →
      syncProjectProgress db now pid =
        ((updateProjectProgress db now pid (p : Int)).1,
         (updateProjectProgress db now pid (p : Int)).2.1,
         GatewayCall.selectTasks :: (updateProjectProgress db now pid (p : Int)).2.2)) ∧
    (∀ e c, (calculateProjectProgress db pid).1 = .err e c →
      GatewayCall.updateProjects ∉ (syncProjectProgress db now pid).2.2 ∧
      GatewayCall.insertProjects ∉ (syncProjectProgress db now pid).2.2) := by
  have hstate := calculateProjectProgress_state db pid
  rcases hx : calculateProjectProgress db pid with ⟨r, db1, c1⟩
  rw [hx] at hstate
  have hdb : db1 = db := hstate.1
  have htr : c1 = [GatewayCall.selectTasks] := hstate.2
  subst hdb htr
  cases r with
  | err e0 c0 =>
    refine ⟨?_, ?_, ?_⟩
    · intro e c hec
      have he : e0 = e ∧ c0 = c := by simpa using hec
      obtain ⟨rfl, rfl⟩ := he
      simp [syncProjectProgress, hx]
    · intro p m hpm
      simp at hpm
    · intro e c hec
      simp [syncProjectProgress, hx]
  | ok p m =>
    refine ⟨?_, ?_, ?_⟩
    · intro e c hec
      simp at hec
    · intro p2 m2 hpm
      have he : p = p2 ∧ m = m2 := by simpa using hpm
      obtain ⟨rfl, rfl⟩ := he
      rcases hu : updateProjectProgress db1 now pid ((p : Int)) with ⟨ur, udb, uc⟩
      simp [syncProjectProgress, hx, hu]
    · intro e c hec
      simp at hec

/-- The three-task store with the backend failing task selects: the compute
step of the Synchronizer errors. -/
def dbCalcFail : DB := { dbThree with failTasksSelect := true }

/-- Claim C3, witness: with task selects failing, the sync returns the
compute error unchanged and issues no write. -/
theorem c3_syncProjectProgress_witness :
    (calculateProjectProgress dbCalcFail "p1").1 =
      .err "Failed to calculate progress: backend error" (some "DATABASE_ERROR") ∧
    syncProjectProgress dbCalcFail 9 "p1" =
      (.err "Failed to calculate progress: backend error" (some "DATABASE_ERROR"), dbCalcFail,
        [GatewayCall.selectTasks]) :=
  ⟨by decide, (c3_syncProjectProgress dbCalcFail 9 "p1").1 "Failed to calculate progress: backend error"
    (some "DATABASE_ERROR") (by decide)⟩

/-! ### Claim C4 -/

/-- Claim C4: a `moveTask` call whose status is outside the five recognized
values yields the `INVALID_STATUS` error listing the valid set, issues no
gateway request, and leaves every task (status and timestamp included)
unchanged. -/
theorem c4_moveTask_invalid_status (db : DB) (now : Nat) (input : MoveTaskInput)
    (h : input.new_status ∉ validTaskStatuses) :
    moveTask db now input =
      (.err ("Invalid status \"" ++ input.new_status ++ "\". Valid statuses: " ++
        String.intercalate ", " validTaskStatuses) (some "INVALID_STATUS"), db, []) ∧
    validTaskStatuses = ["backlog", "todo", "in-progress", "review", "done"] ∧
    (moveTask db now input).2.1.tasks = db.tasks := by
  have hc : validTaskStatuses.contains input.new_status = false := by
    simpa using h
  refine ⟨?_, rfl, ?_⟩
  · simp [moveTask, hc]
    intro hmem
    exact absurd hmem h
  · simp [moveTask, hc]
    rw [if_neg h]

/-- Claim C4, witness: moving a task to status `invalid` on the sample store. -/
theorem c4_moveTask_invalid_status_witness :
    ("invalid" ∉ validTaskStatuses) ∧
    moveTask dbThree 11 { task_id := "t", new_status := "invalid" } =
      (.err ("Invalid status \"" ++ "invalid" ++ "\". Valid statuses: " ++
        String.intercalate ", " validTaskStatuses) (some "INVALID_STATUS"), dbThree, []) :=
  ⟨by decide,
    (c4_moveTask_invalid_status dbThree 11 { task_id := "t", new_status := "invalid" }
      (by decide)).1⟩

/-! ### Claim C5 -/

/-- Claim C5: `listProjects` fails `MISSING_WORKSPACE_ID` without issuing any
store request when neither the argument nor the process default resolves to
a (truthy) workspace id, and fails `WORKSPACE_NOT_FOUND` after only the
existence check — before any project listing — when the resolved id does not
exist. -/
theorem c5_listProjects_guards (cfg : Config) (db : DB) (input : ListProjectsInput) :
    (jsTruthyStr (jsOrStr input.workspace_id cfg.defaultWorkspaceId) = false →
      listProjects cfg db input =
        (.err "workspace_id is required. Either provide it or set DEFAULT_WORKSPACE_ID."
          (some "MISSING_WORKSPACE_ID"), db, [])) ∧
    (∀ w, jsOrStr input.workspace_id cfg.defaultWorkspaceId = some w →
      jsTruthyStr (jsOrStr input.workspace_id cfg.defaultWorkspaceId) = true →
      validateWorkspaceId db w = false →
      listProjects cfg db input =
        (.err s!"Workspace with ID \"{w}\" not found." (some "WORKSPACE_NOT_FOUND"), db,
          [GatewayCall.selectWorkspaces])) := by
  constructor
  · intro hfalsy
    simp [listProjects, hfalsy]
  · intro w hres htruthy hnotfound
    rw [hres] at htruthy
    simp [listProjects, hres, htruthy, hnotfound]

/-- Claim C5, witness: no argument and no default yields the missing-id
error with an empty request trace; a resolved but unknown default yields the
not-found error after only the workspace existence check. -/
theorem c5_listProjects_guards_witness :
    (jsTruthyStr (jsOrStr (none : Option String) none) = false ∧
      listProjects { defaultWorkspaceId := none } dbThree {} =
        (.err "workspace_id is required. Either provide it or set DEFAULT_WORKSPACE_ID."
          (some "MISSING_WORKSPACE_ID"), dbThree, [])) ∧
    (jsOrStr (none : Option String) (some "nope") = some "nope" ∧
      validateWorkspaceId dbThree "nope" = false ∧
      listProjects { defaultWorkspaceId := some "nope" } dbThree {} =
        (.err s!"Workspace with ID \"nope\" not found." (some "WORKSPACE_NOT_FOUND"), dbThree,
          [GatewayCall.selectWorkspaces])) :=
  ⟨⟨rfl, (c5_listProjects_guards { defaultWorkspaceId := none } dbThree {}).1 rfl⟩,
   ⟨rfl, by decide,
     (c5_listProjects_guards { defaultWorkspaceId := some "nope" } dbThree {}).2 "nope" rfl rfl
       (by decide)⟩⟩

/-! ### Claim C6 -/

/-- The envelope contract: a success with its (mandatory) data, or an error
with its error string and a present symbolic code. -/
def resultWellFormed {α : Type} (r : ToolResult α) : Prop :=
  (∃ d m, r = .ok d m) ∨ (∃ e c, r = .err e (some c))

/-- The payload injection at the dispatcher preserves envelope shape. -/
lemma resultWellFormed_map {α : Type} (f : α → ToolData) (o : Outcome α)
    (h : resultWellFormed o.1) : resultWellFormed (mapOutcome f o).1 := by
  rcases o with ⟨r, db0, tr⟩
  cases r with
  | ok d m => exact Or.inl ⟨f d, m, rfl⟩
  | err e c =>
    rcases h with ⟨d, m, heq⟩ | ⟨e0, c0, heq⟩
    · exact absurd heq (by simp)
    · injection heq with h1 h2
      exact Or.inr ⟨e, c0, by rw [h2]; rfl⟩

/-- `listWorkspaces` returns a well-formed envelope. -/
lemma wf_listWorkspaces (db : DB) (input : ListWorkspacesInput) :
    resultWellFormed (listWorkspaces db input).1 := by
  simp only [listWorkspaces]
  repeat' split
  all_goals first | exact Or.inl ⟨_, _, rfl⟩ | exact Or.inr ⟨_, _, rfl⟩

/-- `getWorkspace` returns a well-formed envelope. -/
lemma wf_getWorkspace (db : DB) (input : GetWorkspaceInput) :
    resultWellFormed (getWorkspace db input).1 := by
  simp only [getWorkspace]
  repeat' split
  all_goals first | exact Or.inl ⟨_, _, rfl⟩ | exact Or.inr ⟨_, _, rfl⟩

/-- `getWorkspaceSummary` returns a well-formed envelope. -/
lemma wf_getWorkspaceSummary (db : DB) (wid : String) :
    resultWellFormed (getWorkspaceSummary db wid).1 := by
  simp only [getWorkspaceSummary, mkSummary]
  repeat' split
  all_goals first | exact Or.inl ⟨_, _, rfl⟩ | exact Or.inr ⟨_, _, rfl⟩

/-- `getWorkInProgress` returns a well-formed envelope. -/
lemma wf_getWorkInProgress (db : DB) (wid : String) :
    resultWellFormed (getWorkInProgress db wid).1 := by
  simp only [getWorkInProgress]
  repeat' split
  all_goals first | exact Or.inl ⟨_, _, rfl⟩ | exact Or.inr ⟨_, _, rfl⟩

/-- `listProjects` returns a well-formed envelope. -/
lemma wf_listProjects (cfg : Config) (db : DB) (input : ListProjectsInput) :
    resultWellFormed (listProjects cfg db input).1 := by
  simp only [listProjects]
  repeat' split
  all_goals first | exact Or.inl ⟨_, _, rfl⟩ | exact Or.inr ⟨_, _, rfl⟩

/-- `getProject` returns a well-formed envelope. -/
lemma wf_getProject (db : DB) (input : GetProjectInput) :
    resultWellFormed (getProject db input).1 := by
  simp only [getProject]
  repeat' split
  all_goals first | exact Or.inl ⟨_, _, rfl⟩ | exact Or.inr ⟨_, _, rfl⟩

/-- `createProject` returns a well-formed envelope. -/
lemma wf_createProject (db : DB) (now : Nat) (input : CreateProjectInput) :
    resultWellFormed (createProject db now input).1 := by
  simp only [createProject]
  repeat' split
  all_goals first | exact Or.inl ⟨_, _, rfl⟩ | exact Or.inr ⟨_, _, rfl⟩

/-- `updateProject` returns a well-formed envelope. -/
lemma wf_updateProject (db : DB) (now : Nat) (input : UpdateProjectInput) :
    resultWellFormed (updateProject db now input).1 := by
  simp only [updateProject]
  repeat' split
  all_goals first | exact Or.inl ⟨_, _, rfl⟩ | exact Or.inr ⟨_, _, rfl⟩

/-- `updateProjectProgress` returns a well-formed envelope. -/
lemma wf_updateProjectProgress (db : DB) (now : Nat) (pid : String) (p : Int) :
    resultWellFormed (updateProjectProgress db now pid p).1 := by
  simp only [updateProjectProgress]
  exact wf_updateProject db now _

/-- `createTask` returns a well-formed envelope. -/
lemma wf_createTask (db : DB) (now : Nat) (input : CreateTaskInput) :
    resultWellFormed (createTask db now input).1 := by
  simp only [createTask]
  repeat' split
  all_goals first | exact Or.inl ⟨_, _, rfl⟩ | exact Or.inr ⟨_, _, rfl⟩

/-- `getTask` returns a well-formed envelope. -/
lemma wf_getTask (db : DB) (tid : String) :
    resultWellFormed (getTask db tid).1 := by
  simp only [getTask]
  repeat' split
  all_goals first | exact Or.inl ⟨_, _, rfl⟩ | exact Or.inr ⟨_, _, rfl⟩

/-- `updateTask` returns a well-formed envelope. -/
lemma wf_updateTask (db : DB) (now : Nat) (input : UpdateTaskInput) :
    resultWellFormed (updateTask db now input).1 := by
  simp only [updateTask]
  repeat' split
  all_goals first | exact Or.inl ⟨_, _, rfl⟩ | exact Or.inr ⟨_, _, rfl⟩

/-- `moveTask` returns a well-formed envelope. -/
lemma wf_moveTask (db : DB) (now : Nat) (input : MoveTaskInput) :
    resultWellFormed (moveTask db now input).1 := by
  simp only [moveTask]
  repeat' split
  all_goals first | exact Or.inl ⟨_, _, rfl⟩ | exact Or.inr ⟨_, _, rfl⟩

/-- `startTask` returns a well-formed envelope. -/
lemma wf_startTask (db : DB) (now : Nat) (tid : String) :
    resultWellFormed (startTask db now tid).1 := by
  simp only [startTask]
  exact wf_moveTask db now _

/-- `completeTask` returns a well-formed envelope. -/
lemma wf_completeTask (db : DB) (now : Nat) (tid : String) :
    resultWellFormed (completeTask db now tid).1 := by
  simp only [completeTask]
  exact wf_moveTask db now _

/-- `reviewTask` returns a well-formed envelope. -/
lemma wf_reviewTask (db : DB) (now : Nat) (tid : String) :
    resultWellFormed (reviewTask db now tid).1 := by
  simp only [reviewTask]
  exact wf_moveTask db now _

/-- `searchTasks` returns a well-formed envelope. -/
lemma wf_searchTasks (db : DB) (input : SearchTasksInput) :
    resultWellFormed (searchTasks db input).1 := by
  simp only [searchTasks]
  repeat' split
  all_goals first | exact Or.inl ⟨_, _, rfl⟩ | exact Or.inr ⟨_, _, rfl⟩

/-- `listProjectTasks` returns a well-formed envelope. -/
lemma wf_listProjectTasks (db : DB) (pid : String) (status : Option String) :
    resultWellFormed (listProjectTasks db pid status).1 := by
  simp only [listProjectTasks]
  repeat' split
  all_goals first | exact Or.inl ⟨_, _, rfl⟩ | exact Or.inr ⟨_, _, rfl⟩

/-- `deleteTask` returns a well-formed envelope. -/
lemma wf_deleteTask (db : DB) (now : Nat) (tid : String) :
    resultWellFormed (deleteTask db now tid).1 := by
  simp only [deleteTask]
  repeat' split
  all_goals first | exact Or.inl ⟨_, _, rfl⟩ | exact Or.inr ⟨_, _, rfl⟩

/-- Claim C6: every result the dispatcher returns — over every tool name,
argument bag, configuration, store, and time — is exactly one of the two
envelope variants: a success with a present data payload, or an error with
an error string and a present symbolic code. -/
theorem c6_envelope_shape (cfg : Config) (db : DB) (now : Nat) (name : String) (args : Args) :
    resultWellFormed ((handleToolCall cfg db now name args).1) := by
  unfold handleToolCall
  split
  · exact resultWellFormed_map _ _ (wf_listWorkspaces _ _)
  · exact resultWellFormed_map _ _ (wf_getWorkspace _ _)
  · exact resultWellFormed_map _ _ (wf_getWorkspaceSummary _ _)
  · exact resultWellFormed_map _ _ (wf_getWorkInProgress _ _)
  · exact resultWellFormed_map _ _ (wf_listProjects _ _ _)
  · exact resultWellFormed_map _ _ (wf_getProject _ _)
  · exact resultWellFormed_map _ _ (wf_createProject _ _ _)
  · exact resultWellFormed_map _ _ (wf_updateProject _ _ _)
  · exact resultWellFormed_map _ _ (wf_updateProjectProgress _ _ _ _)
  · exact resultWellFormed_map _ _ (wf_createTask _ _ _)
  · exact resultWellFormed_map _ _ (wf_getTask _ _)
  · exact resultWellFormed_map _ _ (wf_updateTask _ _ _)
  · exact resultWellFormed_map _ _ (wf_moveTask _ _ _)
  · exact resultWellFormed_map _ _ (wf_startTask _ _ _)
  · exact resultWellFormed_map _ _ (wf_completeTask _ _ _)
  · exact resultWellFormed_map _ _ (wf_reviewTask _ _ _)
  · exact resultWellFormed_map _ _ (wf_searchTasks _ _)
  · exact resultWellFormed_map _ _ (wf_listProjectTasks _ _ _)
  · exact resultWellFormed_map _ _ (wf_deleteTask _ _ _)
  · exact Or.inr ⟨_, _, rfl⟩

/-! ### Claim C7 -/

/-- The project comparator sorts by descending update time. -/
lemma sorted_mergeSort_updatedDescP (l : List ProjectRow) :
    List.Sorted (fun a b => b.updated_at ≤ a.updated_at) (l.mergeSort updatedDescP) := by
  have htrans : ∀ a b c : ProjectRow, updatedDescP a b → updatedDescP b c → updatedDescP a c := by
    intro a b c hab hbc
    simp [updatedDescP] at *
    omega
  have htotal : ∀ a b : ProjectRow, (updatedDescP a b || updatedDescP b a) = true := by
    intro a b
    simp [updatedDescP]
    omega
  have h := @List.sorted_mergeSort ProjectRow updatedDescP htrans htotal l
  exact h.imp (fun hab => by simpa [updatedDescP] using hab)

/-- The task comparator sorts by descending update time. -/
lemma sorted_mergeSort_updatedDescT (l : List TaskRow) :
    List.Sorted (fun a b => b.updated_at ≤ a.updated_at) (l.mergeSort updatedDescT) := by
  have htrans : ∀ a b c : TaskRow, updatedDescT a b → updatedDescT b c → updatedDescT a c := by
    intro a b c hab hbc
    simp [updatedDescT] at *
    omega
  have htotal : ∀ a b : TaskRow, (updatedDescT a b || updatedDescT b a) = true := by
    intro a b
    simp [updatedDescT]
    omega
  have h := @List.sorted_mergeSort TaskRow updatedDescT htrans htotal l
  exact h.imp (fun hab => by simpa [updatedDescT] using hab)

/-- Claim C7: `getWorkspaceSummary` of an existing workspace succeeds with
project-status counts over the four project statuses, task-status counts
over the five task statuses of the tasks of the workspace's projects, and
`recent_projects` = the active projects sorted most-recently-updated first,
capped at five. -/
theorem c7_getWorkspaceSummary (db : DB) (wid : String)
    (hv : validateWorkspaceId db wid = true)
    (hp : db.failProjectsSelect = false) (ht : db.failTasksSelect = false)
    (hm : db.failTeamMembersSelect = false) :
    ∃ s, ((getWorkspaceSummary db wid).1).dataOf = some s ∧
      ∀ projs ts, projs = db.projects.filter (fun p => p.workspace_id == wid) →
        ts = db.tasks.filter (fun t => (projs.map (fun p => p.id)).contains t.project_id) →
        s.projects.active = (projs.filter (fun p => p.status == "active")).length ∧
        s.projects.completed = (projs.filter (fun p => p.status == "completed")).length ∧
        s.projects.planning = (projs.filter (fun p => p.status == "planning")).length ∧
        s.projects.on_hold = (projs.filter (fun p => p.status == "on-hold")).length ∧
        s.tasks.backlog = (ts.filter (fun t => t.status == "backlog")).length ∧
        s.tasks.todo = (ts.filter (fun t => t.status == "todo")).length ∧
        s.tasks.in_progress = (ts.filter (fun t => t.status == "in-progress")).length ∧
        s.tasks.review = (ts.filter (fun t => t.status == "review")).length ∧
        s.tasks.done = (ts.filter (fun t => t.status == "done")).length ∧
        ∃ l, l.Perm (projs.filter (fun p => p.status == "active")) ∧
          List.Sorted (fun a b => b.updated_at ≤ a.updated_at) l ∧
          s.recent_projects = l.take 5 := by
  have hvv := hv
  unfold validateWorkspaceId at hvv
  rw [Bool.and_eq_true] at hvv
  obtain ⟨hwfb, hany⟩ := hvv
  have hwf : db.failWorkspacesSelect = false := by simpa using hwfb
  rw [List.any_eq_true] at hany
  obtain ⟨wx, hwmem, hweq⟩ := hany
  have hfind : (db.workspaces.find? (fun w => w.id == wid)).isSome := by
    rw [List.find?_isSome]
    exact ⟨wx, hwmem, hweq⟩
  obtain ⟨w0, hw0⟩ := Option.isSome_iff_exists.mp hfind
  by_cases hempty : ((db.projects.filter (fun p => p.workspace_id == wid)).map (fun p => p.id)).isEmpty
  · have hpnil : db.projects.filter (fun p => p.workspace_id == wid) = [] := by
      simpa using hempty
    refine ⟨summaryOf db w0 [] [], ?_, ?_⟩
    · simp [getWorkspaceSummary, hv, hwf, hp, hm, hw0, hempty, mkSummary, hpnil,
        ToolResult.dataOf]
    · intro projs ts hprojs hts
      subst hprojs
      subst hts
      rw [hpnil]
      refine ⟨by simp [summaryOf], by simp [summaryOf], by simp [summaryOf], by simp [summaryOf],
        by simp [summaryOf, taskCountsOf], by simp [summaryOf, taskCountsOf],
        by simp [summaryOf, taskCountsOf], by simp [summaryOf, taskCountsOf],
        by simp [summaryOf, taskCountsOf], [], by simp, by simp, by simp [summaryOf]⟩
  · have htnonnil := hempty
    refine ⟨summaryOf db w0 (db.projects.filter (fun p => p.workspace_id == wid))
      (db.tasks.filter (fun t =>
        ((db.projects.filter (fun p => p.workspace_id == wid)).map (fun p => p.id)).contains
          t.project_id)), ?_, ?_⟩
    · simp [getWorkspaceSummary, hv, hwf, hp, ht, hm, hw0, hempty, mkSummary,
        ToolResult.dataOf]
    · intro projs ts hprojs hts
      subst hprojs
      subst hts
      refine ⟨rfl, rfl, rfl, rfl, rfl, rfl, rfl, rfl, rfl, ?_⟩
      refine ⟨((db.projects.filter (fun p => p.workspace_id == wid)).filter
          (fun p => p.status == "active")).mergeSort updatedDescP,
        List.mergeSort_perm _ _, sorted_mergeSort_updatedDescP _, ?_⟩
      simp only [summaryOf]

/-- Claim C7, witness: the summary of the sample workspace. -/
theorem c7_getWorkspaceSummary_witness :
    validateWorkspaceId dbThree "w1" = true ∧ dbThree.failProjectsSelect = false ∧
    dbThree.failTasksSelect = false ∧ dbThree.failTeamMembersSelect = false ∧
    ∃ s, ((getWorkspaceSummary dbThree "w1").1).dataOf = some s ∧
      ∀ projs ts, projs = dbThree.projects.filter (fun p => p.workspace_id == "w1") →
        ts = dbThree.tasks.filter (fun t => (projs.map (fun p => p.id)).contains t.project_id) →
        s.projects.active = (projs.filter (fun p => p.status == "active")).length ∧
        s.projects.completed = (projs.filter (fun p => p.status == "completed")).length ∧
        s.projects.planning = (projs.filter (fun p => p.status == "planning")).length ∧
        s.projects.on_hold = (projs.filter (fun p => p.status == "on-hold")).length ∧
        s.tasks.backlog = (ts.filter (fun t => t.status == "backlog")).length ∧
        s.tasks.todo = (ts.filter (fun t => t.status == "todo")).length ∧
        s.tasks.in_progress = (ts.filter (fun t => t.status == "in-progress")).length ∧
        s.tasks.review = (ts.filter (fun t => t.status == "review")).length ∧
        s.tasks.done = (ts.filter (fun t => t.status == "done")).length ∧
        ∃ l, l.Perm (projs.filter (fun p => p.status == "active")) ∧
          List.Sorted (fun a b => b.updated_at ≤ a.updated_at) l ∧
          s.recent_projects = l.take 5 :=
  ⟨by decide, rfl, rfl, rfl, c7_getWorkspaceSummary dbThree "w1" (by decide) rfl rfl rfl⟩

/-! ### Claim C8 -/

/-- Claim C8: `getWorkInProgress` of an existing workspace returns an empty
success (not an error) with a descriptive message when the workspace has no
projects, and otherwise exactly the tasks of those projects whose status is
in-progress or review, most-recently-updated first. -/
theorem c8_getWorkInProgress (db : DB) (wid : String)
    (hv : validateWorkspaceId db wid = true)
    (hp : db.failProjectsSelect = false) (ht : db.failTasksSelect = false) :
    (db.projects.filter (fun p => p.workspace_id == wid) = [] →
      getWorkInProgress db wid = (.ok [] (some "No projects in workspace"), db,
        [GatewayCall.selectWorkspaces, GatewayCall.selectProjects])) ∧
    (db.projects.filter (fun p => p.workspace_id == wid) ≠ [] →
      ∃ l, ((getWorkInProgress db wid).1).dataOf = some l ∧
        l.Perm (db.tasks.filter (fun t =>
          ((db.projects.filter (fun p => p.workspace_id == wid)).map (fun p => p.id)).contains
            t.project_id && (t.status == "in-progress" || t.status == "review"))) ∧
        List.Sorted (fun a b => b.updated_at ≤ a.updated_at) l) := by
  constructor
  · intro hnil
    simp [getWorkInProgress, hv, hp, hnil]
  · intro hne
    have hempty :
        ((db.projects.filter (fun p => p.workspace_id == wid)).map (fun p => p.id)).isEmpty
          = false := by
      simp [List.isEmpty_iff, hne]
    refine ⟨(db.tasks.filter (fun t =>
        ((db.projects.filter (fun p => p.workspace_id == wid)).map (fun p => p.id)).contains
          t.project_id && (t.status == "in-progress" || t.status == "review"))).mergeSort
        updatedDescT, ?_, List.mergeSort_perm _ _, sorted_mergeSort_updatedDescT _⟩
    simp [getWorkInProgress, hv, hp, ht, hempty, ToolResult.dataOf]

/-- Claim C8, witness: the project-less workspace yields the empty success;
the three-task workspace yields its in-progress task set. -/
theorem c8_getWorkInProgress_witness :
    (validateWorkspaceId dbNoProjects "w1" = true ∧
      getWorkInProgress dbNoProjects "w1" = (.ok [] (some "No projects in workspace"),
        dbNoProjects, [GatewayCall.selectWorkspaces, GatewayCall.selectProjects])) ∧
    (validateWorkspaceId dbThree "w1" = true ∧
      dbThree.projects.filter (fun p => p.workspace_id == "w1") ≠ [] ∧
      ∃ l, ((getWorkInProgress dbThree "w1").1).dataOf = some l ∧
        l.Perm (dbThree.tasks.filter (fun t =>
          ((dbThree.projects.filter (fun p => p.workspace_id == "w1")).map (fun p => p.id)).contains
            t.project_id && (t.status == "in-progress" || t.status == "review"))) ∧
        List.Sorted (fun a b => b.updated_at ≤ a.updated_at) l) :=
  ⟨⟨by decide, (c8_getWorkInProgress dbNoProjects "w1" (by decide) rfl rfl).1 rfl⟩,
   ⟨by decide, by decide,
     (c8_getWorkInProgress dbThree "w1" (by decide) rfl rfl).2 (by decide)⟩⟩

/-! ### Claim C9 -/

/-- Claim C9: for every operation name outside the tool catalog, the
dispatcher returns the `UNKNOWN_TOOL` error envelope with the store untouched
and no gateway request — no entity operation runs. -/
theorem c9_unknown_tool (cfg : Config) (db : DB) (now : Nat) (name : String) (args : Args)
    (h : name ∉ TOOL_NAMES) :
    handleToolCall cfg db now name args =
      (.err ("Unknown tool: " ++ name) (some "UNKNOWN_TOOL"), db, []) := by
  unfold handleToolCall
  split
  all_goals first
    | rfl
    | exact absurd (by decide) h

/-- Claim C9, witness: an unknown tool name on the sample store. -/
theorem c9_unknown_tool_witness :
    "no_such_tool" ∉ TOOL_NAMES ∧
    handleToolCall { defaultWorkspaceId := none } dbThree 0 "no_such_tool" {} =
      (.err ("Unknown tool: " ++ "no_such_tool") (some "UNKNOWN_TOOL"), dbThree, []) :=
  ⟨by decide,
    c9_unknown_tool { defaultWorkspaceId := none } dbThree 0 "no_such_tool" {} (by decide)⟩

/-! ### Claim C10 -/

/-- Claim C10: `createProject` stores `null` for an optional field whose
supplied value is JavaScript-falsy — an empty-string description, a budget of
`0`, or an `estimated_duration_hours` of `0` all reach the inserted row as
`null` rather than as the supplied value. -/
theorem c10_createProject_falsy_null (db : DB) (now : Nat) (input : CreateProjectInput)
    (hv : validateWorkspaceId db input.workspace_id = true)
    (hw : db.failProjectsWrite = false) :
    ∃ row, ((createProject db now input).1).dataOf = some row ∧
      row ∈ (createProject db now input).2.1.projects ∧
      (input.description = some "" → row.description = none) ∧
      (input.budget = some 0 → row.budget = none) ∧
      (input.estimated_duration_hours = some 0 → row.estimated_duration_hours = none) := by
  refine ⟨newProjectRow db now input, ?_, ?_, ?_, ?_, ?_⟩
  · simp [createProject, hv, hw, ToolResult.dataOf]
  · simp [createProject, hv, hw]
  · intro hd
    simp [newProjectRow, jsOrNullStr, jsTruthyStr, hd]
  · intro hb
    simp [newProjectRow, jsOrNullNum, jsTruthyNum, hb]
  · intro he
    simp [newProjectRow, jsOrNullNum, jsTruthyNum, he]

/-- A creation input whose three optional fields are all falsy. -/
def falsyCreateInput : CreateProjectInput :=
  { workspace_id := "w1", name := "N", description := some "", budget := some 0,
    estimated_duration_hours := some 0 }

/-- Claim C10, witness: creating a project with the falsy fields on the
sample store. -/
theorem c10_createProject_falsy_null_witness :
    validateWorkspaceId dbThree falsyCreateInput.workspace_id = true ∧
    dbThree.failProjectsWrite = false ∧
    ∃ row, ((createProject dbThree 3 falsyCreateInput).1).dataOf = some row ∧
      row ∈ (createProject dbThree 3 falsyCreateInput).2.1.projects ∧
      (falsyCreateInput.description = some "" → row.description = none) ∧
      (falsyCreateInput.budget = some 0 → row.budget = none) ∧
      (falsyCreateInput.estimated_duration_hours = some 0 →
        row.estimated_duration_hours = none) :=
  ⟨by decide, rfl, c10_createProject_falsy_null dbThree 3 falsyCreateInput (by decide) rfl⟩

end Canvas
